import Mathlib

/-!
Verification of the self-update subsystem of TerminalUtils.

Shallow embedding of the Python sources src/util_handler.py and
src/update_check.py.  Pure helpers (version parsing and comparison,
manifest lookup) become Lean functions; the stateful check operations
become functions from an explicit environment (clock value, outcome of
each network call, manifest contents) and an explicit file-system state
(cache file, flag file) to an outcome record that carries the printed
messages, the escaped exception if any, and the final file state.

Modelling conventions, stated once here:
 - time.time() is modelled as a single integer clock value env.now held
   fixed for the run (the source reads the clock more than once; the
   skew is irrelevant to every claim below);
 - a JSON value that can reach the version-comparison code is modelled
   by PyVal: Python None, a string, or the (tag_name, zipball_url)
   tuple that util_handler.fetch_latest_github_release returns;
 - file writes whose failure the source swallows (cache write, flag
   write, flag removal, temp-file removal) are modelled as succeeding;
   the source wraps each of them in try/except pass;
 - Python int() is modelled for ASCII input: surrounding ASCII
   whitespace, an optional sign, decimal digits with single
   underscores allowed between digits.
-/

/-! ## VersionModel: parse_version / _parse_version and
    compare_versions / _compare_versions (identical in both files) -/

/-- Python ASCII whitespace accepted by int(). -/
def isPySpace (c : Char) : Bool :=
  c == ' ' || c == '\t' || c == '\n' || c == '\x0d' || c == '\x0b' || c == '\x0c'

/-- Digits of a Python int literal after the first digit: a single
underscore may stand between two digits. Accumulates the value. -/
def digitsCore : Nat → List Char → Option Nat
  | acc, [] => some acc
  | acc, '_' :: c :: cs =>
    if c.isDigit then digitsCore (acc * 10 + (c.toNat - 48)) cs else none
  | _, ['_'] => none
  | acc, c :: cs =>
    if c.isDigit then digitsCore (acc * 10 + (c.toNat - 48)) cs else none

/-- Digit run of a Python int literal: must start with a digit. -/
def digitsStart : List Char → Option Nat
  | [] => none
  | c :: cs => if c.isDigit then digitsCore (c.toNat - 48) cs else none

/-- Python int(s) on the characters of one dot-separated component:
strip whitespace, optional sign, then digits; none models ValueError. -/
def pyIntChars (p : List Char) : Option Int :=
  let t := ((p.dropWhile isPySpace).reverse.dropWhile isPySpace).reverse
  match t with
  | '+' :: rest => (digitsStart rest).map (fun n => (n : Int))
  | '-' :: rest => (digitsStart rest).map (fun n => -(n : Int))
  | rest => (digitsStart rest).map (fun n => (n : Int))

/-- Python str.split on a dot: "" splits to [""], "a.b" to ["a","b"]. -/
def splitDots : List Char → List (List Char)
  | [] => [[]]
  | '.' :: rest => [] :: splitDots rest
  | c :: rest =>
    match splitDots rest with
    | [] => [[c]]
    | p :: ps => (c :: p) :: ps

/-- The for-loop of parse_version: convert components with int() and
stop at the first component that raises ValueError. -/
def takeIntsChars : List (List Char) → List Int
  | [] => []
  | p :: ps =>
    match pyIntChars p with
    | some n => n :: takeIntsChars ps
    | none => []

/-- parse_version (util_handler.py lines 35-47) and _parse_version
(update_check.py lines 34-44): empty or None input gives the empty
tuple; otherwise lstrip all leading v/V, split on dots, take integer
components up to the first failure. -/
def parse_version (v : String) : List Int :=
  if v = "" then []
  else takeIntsChars (splitDots (v.toList.dropWhile (fun c => c == 'v' || c == 'V')))

/-- Python tuple-of-int lexicographic strict order: a shorter tuple that
is a prefix of a longer one is less. -/
def pyListLt : List Int → List Int → Bool
  | _, [] => false
  | [], _ :: _ => true
  | a :: as, b :: bs => if a < b then true else if b < a then false else pyListLt as bs

/-- The Python expression (x gt y) - (x lt y) on two int tuples, where
tuple gt is the flip of tuple lt. -/
def pyTupleCmp (x y : List Int) : Int :=
  (if pyListLt y x then 1 else 0) - (if pyListLt x y then 1 else 0)

/-- compare_versions (util_handler.py lines 49-50) and _compare_versions
(update_check.py lines 47-48) restricted to string arguments, on which
parsing never raises. -/
def compare_versions (a b : String) : Int :=
  pyTupleCmp (parse_version a) (parse_version b)


/-! ## Python values reaching the version code, manifest lookup,
    persisted cache and flag files -/

/-- Values the variable named latest can hold in the two check
functions: Python None (JSON null tag), a string tag, or the
(tag_name, zipball_url) tuple returned by fetch_latest_github_release. -/
inductive PyVal where
  | pynone
  | str (s : String)
  | pair (tag zipUrl : Option String)
deriving DecidableEq

/-- Exceptions that the embedded code can raise or propagate. -/
inductive PyExc where
  | attributeErr   -- tuple object has no attribute lstrip
  | fetchExc       -- an unguarded fetch_latest_github_release call raised
  | applyExc       -- download_and_apply_update raised
  | osErr          -- os.makedirs raised during the copy walk
deriving DecidableEq

/-- Python truthiness of a PyVal: None and the empty string are falsy;
a 2-tuple is always truthy. -/
def truthyPy : PyVal → Bool
  | .pynone => false
  | .str s => s != ""
  | .pair _ _ => true

/-- Python truthiness of an optional string (None or str). -/
def truthyStr : Option String → Bool
  | none => false
  | some s => s != ""

/-- A fetched Option String tag as the Python value stored in latest. -/
def optToPy : Option String → PyVal
  | none => .pynone
  | some s => .str s

/-- _parse_version applied to a general Python value: falsy values give
the empty tuple; a truthy non-string has no lstrip method and raises
AttributeError. -/
def parse_version_py : PyVal → Except PyExc (List Int)
  | .pynone => .ok []
  | .str s => .ok (parse_version s)
  | .pair _ _ => .error .attributeErr

/-- _compare_versions applied to general Python values; the left
argument is parsed first, as in the Python expression. -/
def compare_versions_py (a b : PyVal) : Except PyExc Int :=
  match parse_version_py a with
  | .error e => .error e
  | .ok x =>
    match parse_version_py b with
    | .error e => .error e
    | .ok y => .ok (pyTupleCmp x y)

/-- State of pyproject.toml as seen by get_local_version: missing file,
a file toml.load (or the subsequent dict lookups) raises on, or a
parsed manifest restricted to the two recognized keys.  A key holds
none when absent and some s when present with string value s (the
empty string included). -/
inductive ManifestState where
  | missing
  | unparsable
  | parsed (projectVersion : Option String) (poetryVersion : Option String)
deriving DecidableEq

/-- get_local_version (util_handler.py lines 24-33) and
_get_local_version (update_check.py lines 23-31): missing or
unparsable manifest gives None; otherwise the Python expression
project-version or poetry-version, which yields the first operand when
it is truthy and the second operand verbatim otherwise. -/
def get_local_version : ManifestState → Option String
  | .missing => none
  | .unparsable => none
  | .parsed p q => if truthyStr p then p else q

/-- Contents of the cache file .update_cache.json as the check
functions read it back: the two fields with their Python defaults. -/
structure CacheData where
  last_checked : Int
  latest : PyVal
deriving DecidableEq

/-- Contents of the flag file .update_available.json written by
_write_flag: the latest value (as passed), the local version string,
and a timestamp. -/
structure FlagData where
  latest : PyVal
  localVersion : String
  timestamp : Int
deriving DecidableEq

/-- The two persisted files; none models an absent (or, for the cache,
unreadable) file. -/
structure CheckState where
  cache : Option CacheData
  flag : Option FlagData
deriving DecidableEq

/-- _read_cache (update_check.py lines 59-67) followed by the two
cache.get calls: a missing or malformed cache file behaves as the empty
dict, whose defaults are last_checked 0 and latest None. -/
def readCache : Option CacheData → CacheData
  | none => ⟨0, .pynone⟩
  | some c => c

/-- Messages printed by the check functions, one tag per print site. -/
inductive Msg where
  | couldNotReach      -- Could not reach GitHub to check for updates.
  | fetchFailed        -- Failed to determine latest release.
  | localNotFound      -- Local version not found (pyproject.toml missing or invalid).
  | noReleases         -- No releases found on GitHub.
  | updateAvailable    -- Update available: ...
  | upToDate           -- You are up to date (version ...).
  | localNewer         -- Local version (...) is newer than latest release (...).
  | updateApplied      -- Update applied. Please restart the utility.
  | updateFailed       -- Update failed.
  | updateSkipped      -- Update skipped.
deriving DecidableEq

/-- Record of one run of a check function: the exception escaping to
the caller if any, the messages printed in order, whether the
cache-refreshing fetch was attempted, the value of the latest variable
once the cache stage finished (instrumentation; none when the run
ended inside the cache stage), the comparison performed if any
(instrumentation), and the final state of the two files. -/
structure CheckOutcome where
  exc : Option PyExc
  printed : List Msg
  fetchAttempted : Bool
  latestUsed : Option PyVal
  compared : Option (PyVal × String × Int)
  final : CheckState
deriving DecidableEq

/-! ## ReleaseCache + AvailabilitySignal: interactive_check and
    background_check (update_check.py), check_for_updates
    (util_handler.py) -/

/-- Environment of one run of interactive_check or background_check:
the clock, the outcome _fetch_latest would have (error models any
exception the try swallows; ok carries the tag_name JSON field), and
the manifest. -/
structure CheckEnv where
  now : Int
  fetch : Except Unit (Option String)
  manifest : ManifestState

/-- interactive_check after the cache stage (update_check.py lines
115-133): local-version check, falsy-latest check, comparison, then
print and flag write/removal.  cache1 is the cache file state after
the stage, latest the value of the latest variable, fetched whether
_fetch_latest was called. -/
def interactiveRest (env : CheckEnv) (s : CheckState) (cache1 : Option CacheData)
    (latest : PyVal) (fetched : Bool) : CheckOutcome :=
  match get_local_version env.manifest with
  | none => ⟨none, [.localNotFound], fetched, some latest, none, ⟨cache1, s.flag⟩⟩
  | some lv =>
    if lv = "" then ⟨none, [.localNotFound], fetched, some latest, none, ⟨cache1, s.flag⟩⟩
    else if truthyPy latest = false then
      ⟨none, [.noReleases], fetched, some latest, none, ⟨cache1, s.flag⟩⟩
    else
      match compare_versions_py latest (.str lv) with
      | .error e => ⟨some e, [], fetched, some latest, none, ⟨cache1, s.flag⟩⟩
      | .ok cmp =>
        if 0 < cmp then
          ⟨none, [.updateAvailable], fetched, some latest, some (latest, lv, cmp),
            ⟨cache1, some ⟨latest, lv, env.now⟩⟩⟩
        else if cmp = 0 then
          ⟨none, [.upToDate], fetched, some latest, some (latest, lv, cmp), ⟨cache1, none⟩⟩
        else
          ⟨none, [.localNewer], fetched, some latest, some (latest, lv, cmp), ⟨cache1, none⟩⟩

/-- interactive_check (update_check.py lines 98-133): the cache stage
(fresh truthy cache short-circuits the fetch; a failed fetch prints and
returns; a successful fetch overwrites the cache), then the rest. -/
def interactive_check (env : CheckEnv) (s : CheckState) : CheckOutcome :=
  let c := readCache s.cache
  if env.now - c.last_checked < 300 ∧ truthyPy c.latest = true then
    interactiveRest env s s.cache c.latest false
  else
    match env.fetch with
    | .error _ => ⟨none, [.couldNotReach], true, none, none, s⟩
    | .ok t =>
      let latest := optToPy t
      interactiveRest env s (some ⟨env.now, latest⟩) latest true

/-- background_check after the cache stage (update_check.py lines
156-168): silent; a falsy latest removes the flag; a comparison writes
the flag when positive and removes it otherwise. -/
def backgroundRest (env : CheckEnv) (s : CheckState) (cache1 : Option CacheData)
    (latest : PyVal) (fetched : Bool) : CheckOutcome :=
  match get_local_version env.manifest with
  | none => ⟨none, [], fetched, some latest, none, ⟨cache1, s.flag⟩⟩
  | some lv =>
    if lv = "" then ⟨none, [], fetched, some latest, none, ⟨cache1, s.flag⟩⟩
    else if truthyPy latest = false then
      ⟨none, [], fetched, some latest, none, ⟨cache1, none⟩⟩
    else
      match compare_versions_py latest (.str lv) with
      | .error e => ⟨some e, [], fetched, some latest, none, ⟨cache1, s.flag⟩⟩
      | .ok cmp =>
        if 0 < cmp then
          ⟨none, [], fetched, some latest, some (latest, lv, cmp),
            ⟨cache1, some ⟨latest, lv, env.now⟩⟩⟩
        else
          ⟨none, [], fetched, some latest, some (latest, lv, cmp), ⟨cache1, none⟩⟩

/-- background_check (update_check.py lines 136-168): same cache stage
as interactive_check but silent on fetch failure. -/
def background_check (env : CheckEnv) (s : CheckState) : CheckOutcome :=
  let c := readCache s.cache
  if env.now - c.last_checked < 300 ∧ truthyPy c.latest = true then
    backgroundRest env s s.cache c.latest false
  else
    match env.fetch with
    | .error _ => ⟨none, [], true, none, none, s⟩
    | .ok t =>
      let latest := optToPy t
      backgroundRest env s (some ⟨env.now, latest⟩) latest true

/-- Whether a urllib URLError or some other exception interrupted a
fetch; check_for_updates prints a different message for each. -/
inductive FetchErr where
  | url
  | other
deriving DecidableEq

/-- Environment of one run of check_for_updates: the clock, the outcome
of the first fetch_latest_github_release call (whose successful value
is the (tag_name, zipball_url) tuple), the manifest, the answer to the
confirmation prompt, the outcome of the second, unguarded fetch call
made when the user confirms, and the outcome of the
download_and_apply_update call (error models an exception it
propagates; its internals are modelled separately below). -/
structure UtilEnv where
  now : Int
  fetch1 : Except FetchErr (Option String × Option String)
  manifest : ManifestState
  userConfirm : Bool
  fetch2 : Except Unit (Option String × Option String)
  applyOutcome : Except Unit Bool

/-- check_for_updates after the cache stage (util_handler.py lines
172-207): local-version check, falsy-latest check, comparison, then
either the interactive apply flow (cmp positive) or a status print.
Only a successfully applied update touches the flag file; the second
fetch and the apply call are unguarded, so their exceptions escape. -/
def utilRest (env : UtilEnv) (s : CheckState) (cache1 : Option CacheData)
    (latest : PyVal) (fetched : Bool) : CheckOutcome :=
  match get_local_version env.manifest with
  | none => ⟨none, [.localNotFound], fetched, some latest, none, ⟨cache1, s.flag⟩⟩
  | some lv =>
    if lv = "" then ⟨none, [.localNotFound], fetched, some latest, none, ⟨cache1, s.flag⟩⟩
    else if truthyPy latest = false then
      ⟨none, [.noReleases], fetched, some latest, none, ⟨cache1, s.flag⟩⟩
    else
      match compare_versions_py latest (.str lv) with
      | .error e => ⟨some e, [], fetched, some latest, none, ⟨cache1, s.flag⟩⟩
      | .ok cmp =>
        if 0 < cmp then
          if env.userConfirm then
            match env.fetch2 with
            | .error _ =>
              ⟨some .fetchExc, [.updateAvailable], fetched, some latest,
                some (latest, lv, cmp), ⟨cache1, s.flag⟩⟩
            | .ok _ =>
              match env.applyOutcome with
              | .error _ =>
                ⟨some .applyExc, [.updateAvailable], fetched, some latest,
                  some (latest, lv, cmp), ⟨cache1, s.flag⟩⟩
              | .ok true =>
                ⟨none, [.updateAvailable, .updateApplied], fetched, some latest,
                  some (latest, lv, cmp), ⟨none, none⟩⟩
              | .ok false =>
                ⟨none, [.updateAvailable, .updateFailed], fetched, some latest,
                  some (latest, lv, cmp), ⟨cache1, s.flag⟩⟩
          else
            ⟨none, [.updateAvailable, .updateSkipped], fetched, some latest,
              some (latest, lv, cmp), ⟨cache1, s.flag⟩⟩
        else if cmp = 0 then
          ⟨none, [.upToDate], fetched, some latest, some (latest, lv, cmp),
            ⟨cache1, s.flag⟩⟩
        else
          ⟨none, [.localNewer], fetched, some latest, some (latest, lv, cmp),
            ⟨cache1, s.flag⟩⟩

/-- check_for_updates (util_handler.py lines 136-207): the cache stage
stores and compares the whole tuple returned by
fetch_latest_github_release, not its tag component. -/
def check_for_updates (env : UtilEnv) (s : CheckState) : CheckOutcome :=
  let c := readCache s.cache
  if env.now - c.last_checked < 300 ∧ truthyPy c.latest = true then
    utilRest env s s.cache c.latest false
  else
    match env.fetch1 with
    | .error .url => ⟨none, [.couldNotReach], true, none, none, s⟩
    | .error .other => ⟨none, [.fetchFailed], true, none, none, s⟩
    | .ok (t, u) =>
      let latest := PyVal.pair t u
      utilRest env s (some ⟨env.now, latest⟩) latest true

/-! ## UpdateApplier: download_and_apply_update (util_handler.py
    lines 60-134) -/

/-- Existence of the two temporary resources: the downloaded archive
file (NamedTemporaryFile with delete False) and the extraction
directory (mkdtemp). -/
structure TempFS where
  zipExists : Bool
  dirExists : Bool
deriving DecidableEq

/-- A Python try/finally over an explicit TempFS: the body runs, then
the finally clause runs on the body's final state whatever the body's
result was (exceptions included, encoded inside the result type). -/
def pyTryFinally {a : Type} (body : TempFS → a × TempFS)
    (cleanup : TempFS → TempFS) (fs : TempFS) : a × TempFS :=
  let r := body fs
  (r.1, cleanup r.2)

/-- One directory yielded by os.walk over the extracted tree: its path
relative to the wrapper directory as a component list ([] is the top,
where os.path.relpath gives the dot that the source rewrites to the
empty string), whether os.makedirs raises on it, and its regular files
as (name, does shutil.copy2 raise) pairs. -/
structure WalkEntry where
  rel : List String
  mkdirRaises : Bool
  files : List (String × Bool)
deriving DecidableEq

/-- os.path.relpath output for a directory: its components joined with
the separator, the empty string for the top. -/
def relChars : List String → List Char
  | [] => []
  | [d] => d.toList
  | d :: ds => d.toList ++ '/' :: relChars ds

/-- The skip test of the walk loop (util_handler.py line 110):
rel.startswith on the two metadata names is a string-prefix test on
the joined relative path. -/
def skipRel (rel : List String) : Bool :=
  List.isPrefixOf ".git".toList (relChars rel) ||
    List.isPrefixOf ".github".toList (relChars rel)

/-- The three protected installer filenames (util_handler.py line 116). -/
def installerNames : List String := ["install.sh", "install.ps1", "install.psh"]

/-- The inner file loop (util_handler.py lines 114-123): installer
names are skipped, a per-file copy failure is printed and skipped, any
other file is copied. -/
def copyDirFiles : List (String × Bool) → List String
  | [] => []
  | (f, copyRaises) :: rest =>
    if installerNames.contains f then copyDirFiles rest
    else if copyRaises then copyDirFiles rest
    else f :: copyDirFiles rest

/-- The os.walk loop (util_handler.py lines 105-123): each directory is
skipped wholesale when its relative path string starts with .git or
.github; otherwise os.makedirs runs (an OSError there escapes the
loop) and the files are copied.  Returns the copied (directory,
filename) pairs and the escaping exception, if any. -/
def copyWalk : List WalkEntry → List (List String × String) × Option PyExc
  | [] => ([], none)
  | e :: es =>
    if skipRel e.rel then copyWalk es
    else if e.mkdirRaises then ([], some .osErr)
    else
      let here := (copyDirFiles e.files).map (fun f => (e.rel, f))
      let rest := copyWalk es
      (here ++ rest.1, rest.2)

/-- Environment of one run of download_and_apply_update: outcome of the
streamed download, of shutil.unpack_archive, of the zipfile fallback
extraction, and the walk of the extracted tree. -/
structure ApplyEnv where
  download : Except PyExc Unit
  unpack : Except PyExc Unit
  fallbackExtract : Except PyExc Unit
  walk : List WalkEntry

/-- Record of one run of download_and_apply_update: its return value or
the exception it propagates, the files it copied, and the final
existence of the two temporary resources. -/
structure ApplyOutcome where
  result : Except PyExc Bool
  copied : List (List String × String)
  fs : TempFS

/-- The region inside the outer try (util_handler.py lines 73-128):
download, mkdtemp, then the inner try (extract with fallback, walk and
copy) whose finally removes the extraction directory. -/
def applyInner (env : ApplyEnv) (fs : TempFS) :
    (Except PyExc Bool × List (List String × String)) × TempFS :=
  match env.download with
  | .error e => ((.error e, []), fs)
  | .ok _ =>
    let fs1 : TempFS := ⟨fs.zipExists, true⟩
    pyTryFinally (fun fs2 =>
        match (match env.unpack with | .ok _ => Except.ok () | .error _ => env.fallbackExtract) with
        | .error e => ((Except.error e, []), fs2)
        | .ok _ =>
          match copyWalk env.walk with
          | (copied, some e) => ((Except.error e, copied), fs2)
          | (copied, none) => ((Except.ok true, copied), fs2))
      (fun f => ⟨f.zipExists, false⟩) fs1

/-- download_and_apply_update (util_handler.py lines 60-134): a falsy
zip URL returns False before any temporary resource exists; otherwise
the archive temp file is created and the outer try/finally removes it
on every exit. -/
def download_and_apply_update (env : ApplyEnv) (zip_url : Option String) : ApplyOutcome :=
  if truthyStr zip_url = false then ⟨.ok false, [], ⟨false, false⟩⟩
  else
    let r := pyTryFinally (applyInner env) (fun f => ⟨false, f.dirExists⟩) ⟨true, false⟩
    ⟨r.1.1, r.1.2, r.2⟩

/-- Consistency of the flag file with a performed comparison: present
with both compared values exactly when the comparison was GREATER. -/
def flagMatches (now : Int) (ci : PyVal × String × Int) (flag : Option FlagData) : Prop :=
  flag = if 0 < ci.2.2 then some ⟨ci.1, ci.2.1, now⟩ else none

/-! ## Theorems.  Helper lemmas first, then one theorem per claim
    (with its counterexample and witness where required). -/

theorem pyListLt_irrefl (l : List Int) : pyListLt l l = false := by
  induction l with
  | nil => rfl
  | cons a as ih => simp [pyListLt, ih]

theorem pyListLt_append_lt (xs : List Int) (m n : Int) (zs ws : List Int)
    (h : n < m) : pyListLt (xs ++ n :: zs) (xs ++ m :: ws) = true := by
  induction xs with
  | nil => simp [pyListLt, h]
  | cons a as ih => simp [pyListLt, ih]

theorem pyListLt_append_gt (xs : List Int) (m n : Int) (zs ws : List Int)
    (h : n < m) : pyListLt (xs ++ m :: zs) (xs ++ n :: ws) = false := by
  induction xs with
  | nil =>
    have h1 : ¬ m < n := by omega
    simp [pyListLt, h, h1]
  | cons a as ih => simp [pyListLt, ih]

/-- Claim C7: for all version strings a and b, compare_versions a b is
the negation of compare_versions b a, and compare_versions a a is
EQUAL (0). -/
theorem compare_versions_antisym_and_refl (a b : String) :
    compare_versions a b = - compare_versions b a ∧ compare_versions a a = 0 := by
  constructor
  · unfold compare_versions pyTupleCmp
    cases pyListLt (parse_version b) (parse_version a) <;>
      cases pyListLt (parse_version a) (parse_version b) <;> simp
  · unfold compare_versions pyTupleCmp
    rw [pyListLt_irrefl]
    simp

/-- Claim C8: version comparison is numeric per component: whenever the
two parsed versions agree on a common prefix and differ at one
component, the version whose integer there is larger compares GREATER
(result 1), whatever the common tail. -/
theorem compare_versions_numeric_component (a b : String)
    (xs zs : List Int) (m n : Int)
    (ha : parse_version a = xs ++ m :: zs)
    (hb : parse_version b = xs ++ n :: zs)
    (h : n < m) : compare_versions a b = 1 := by
  unfold compare_versions pyTupleCmp
  rw [ha, hb, pyListLt_append_lt xs m n zs zs h, pyListLt_append_gt xs m n zs zs h]
  simp

/-- Witness for C8 at the spec's own example: 2.3.10 compares GREATER
than 2.3.9 because 10 is numerically larger than 9. -/
theorem compare_versions_numeric_component_witness :
    compare_versions "2.3.10" "2.3.9" = 1 :=
  compare_versions_numeric_component "2.3.10" "2.3.9" [2, 3] [] 10 9
    (by decide) (by decide) (by decide)

theorem copyDirFiles_mem (l : List (String × Bool)) (g : String)
    (h : g ∈ copyDirFiles l) : installerNames.contains g = false := by
  induction l with
  | nil => simp [copyDirFiles] at h
  | cons e rest ih =>
    unfold copyDirFiles at h
    split at h
    · exact ih h
    · split at h
      · exact ih h
      · rcases List.mem_cons.mp h with h1 | h1
        · subst h1
          simp_all
        · exact ih h1

theorem copyWalk_mem (ws : List WalkEntry) (p : List String) (g : String)
    (h : (p, g) ∈ (copyWalk ws).1) :
    skipRel p = false ∧ installerNames.contains g = false := by
  induction ws with
  | nil => simp [copyWalk] at h
  | cons e rest ih =>
    unfold copyWalk at h
    split at h
    · exact ih h
    · split at h
      · simp at h
      · rcases List.mem_append.mp h with h1 | h1
        · rcases List.mem_map.mp h1 with ⟨f, hf, hpf⟩
          injection hpf with hp hg
          subst hp
          subst hg
          constructor
          · simp_all
          · exact copyDirFiles_mem e.files f hf
        · exact ih h1

/-- Claim C5, counterexample: the skip test is a string-prefix test on
the relative path, so a source-control metadata directory nested one
level down (relative path sub/.git) is not skipped and its file is
copied to the destination, contradicting the claim that no file whose
relative path includes a .git segment at any depth is ever copied. -/
theorem nested_git_directory_is_copied :
    (download_and_apply_update
      ⟨.ok (), .ok (), .ok (), [⟨["sub", ".git"], false, [("config", false)]⟩]⟩
      (some "https://codeload.example/zip")).copied
    = [(["sub", ".git"], "config")] := by
  rfl

/-- Claim C5 as amended: the apply step never copies a file from a
directory whose relative path string starts with .git or .github
(which protects the top-level metadata directories and everything
below them), and never copies a file named install.sh, install.ps1 or
install.psh anywhere; metadata directories nested below another
directory, however, are not excluded. -/
theorem apply_copy_filter (env : ApplyEnv) (zip_url : Option String)
    (p : List String) (g : String)
    (h : (p, g) ∈ (download_and_apply_update env zip_url).copied) :
    skipRel p = false ∧ installerNames.contains g = false := by
  unfold download_and_apply_update at h
  split at h
  · simp at h
  · simp only [pyTryFinally, applyInner] at h
    cases hd : env.download with
    | error e => rw [hd] at h; simp at h
    | ok u =>
      rw [hd] at h
      dsimp only at h
      cases henv : (match env.unpack with
          | .ok _ => Except.ok ()
          | .error _ => env.fallbackExtract) with
      | error e => rw [henv] at h; simp at h
      | ok u2 =>
        rw [henv] at h
        dsimp only at h
        cases hw : copyWalk env.walk with
        | mk copied exc =>
          rw [hw] at h
          cases exc with
          | none =>
            dsimp only at h
            exact copyWalk_mem env.walk p g (by rw [hw]; exact h)
          | some e =>
            dsimp only at h
            exact copyWalk_mem env.walk p g (by rw [hw]; exact h)

/-- Witness for the amended C5 at a concrete archive: an ordinary
top-level file is copied and indeed satisfies both exclusion rules. -/
theorem apply_copy_filter_witness :
    skipRel [] = false ∧ installerNames.contains "main.py" = false :=
  apply_copy_filter ⟨.ok (), .ok (), .ok (), [⟨[], false, [("main.py", false)]⟩]⟩
    (some "https://codeload.example/zip2") [] "main.py" (by decide)

/-- Claim C6: on every exit path of download_and_apply_update - falsy
URL, download failure, failure of both extraction attempts, a makedirs
failure during the walk, per-file copy failures, or full success - the
temporary archive file and the temporary extraction directory do not
survive the call: each try/finally removes what was created. -/
theorem apply_temp_cleanup (env : ApplyEnv) (zip_url : Option String) :
    (download_and_apply_update env zip_url).fs = ⟨false, false⟩ := by
  unfold download_and_apply_update
  split
  · rfl
  · simp only [pyTryFinally, applyInner]
    cases hd : env.download with
    | error e => rfl
    | ok u => dsimp only

theorem interactiveRest_stage (env : CheckEnv) (s : CheckState) (c1 : Option CacheData)
    (l : PyVal) (f : Bool) :
    (interactiveRest env s c1 l f).fetchAttempted = f ∧
    (interactiveRest env s c1 l f).latestUsed = some l := by
  unfold interactiveRest
  repeat' split
  all_goals exact ⟨rfl, rfl⟩

theorem utilRest_stage (env : UtilEnv) (s : CheckState) (c1 : Option CacheData)
    (l : PyVal) (f : Bool) :
    (utilRest env s c1 l f).fetchAttempted = f ∧
    (utilRest env s c1 l f).latestUsed = some l := by
  unfold utilRest
  repeat' split
  all_goals exact ⟨rfl, rfl⟩

/-- Claim C1: refuted by the code, whose own structure shows the intent
(the spec's never-raise rule and the unpack on util_handler.py line
187): on the ordinary success path - expired cache, successful fetch,
readable local version - check_for_updates feeds the whole
(tag_name, zipball_url) tuple into compare_versions, whose lstrip call
on a tuple raises AttributeError, which propagates to the caller with
nothing printed rather than being reduced to a message or a no-op. -/
theorem check_for_updates_raises_attribute_error :
    (check_for_updates ⟨1000, .ok (some "1.2.0", some "https://api.github.example/zipball"),
        .parsed (some "1.0.0") none, false, .ok (none, none), .ok false⟩
      ⟨none, none⟩).exc = some PyExc.attributeErr ∧
    (check_for_updates ⟨1000, .ok (some "1.2.0", some "https://api.github.example/zipball"),
        .parsed (some "1.0.0") none, false, .ok (none, none), .ok false⟩
      ⟨none, none⟩).printed = [] := by
  exact ⟨rfl, rfl⟩

/-- Claim C2, counterexample: a cache entry checked this very second
but holding a falsy latest field (the empty string) does not
short-circuit the lookup - the truthiness conjunct on the cached value
makes interactive_check fetch again, contradicting the claim that a
fresh entry is returned regardless of the value stored in latest. -/
theorem fresh_cache_with_falsy_latest_still_fetches :
    (interactive_check ⟨100, .ok (some "9.9.9"), .parsed (some "1.0.0") none⟩
      ⟨some ⟨100, .str ""⟩, none⟩).fetchAttempted = true := by
  rfl

/-- Claim C2 as amended: when the persisted cache entry is less than
300 seconds old and its latest field is truthy (a non-empty string or
a tuple), both interactive_check and check_for_updates use that stored
value as the latest release and attempt no remote fetch. -/
theorem fresh_truthy_cache_suppresses_fetch (env : CheckEnv) (uenv : UtilEnv)
    (s : CheckState)
    (h1 : env.now - (readCache s.cache).last_checked < 300)
    (h2 : truthyPy (readCache s.cache).latest = true)
    (h3 : uenv.now - (readCache s.cache).last_checked < 300) :
    (interactive_check env s).fetchAttempted = false ∧
    (interactive_check env s).latestUsed = some (readCache s.cache).latest ∧
    (check_for_updates uenv s).fetchAttempted = false ∧
    (check_for_updates uenv s).latestUsed = some (readCache s.cache).latest := by
  simp only [interactive_check, check_for_updates]
  rw [if_pos ⟨h1, h2⟩, if_pos ⟨h3, h2⟩]
  exact ⟨(interactiveRest_stage env s s.cache (readCache s.cache).latest false).1,
    (interactiveRest_stage env s s.cache (readCache s.cache).latest false).2,
    (utilRest_stage uenv s s.cache (readCache s.cache).latest false).1,
    (utilRest_stage uenv s s.cache (readCache s.cache).latest false).2⟩

/-- Witness for the amended C2: a cache written at the current clock
value with a truthy latest suppresses the fetch in both functions. -/
theorem fresh_truthy_cache_suppresses_fetch_witness :
    (interactive_check ⟨100, .ok (some "2.0.0"), .parsed (some "1.0.0") none⟩
        ⟨some ⟨100, .str "1.5.0"⟩, none⟩).fetchAttempted = false ∧
    (interactive_check ⟨100, .ok (some "2.0.0"), .parsed (some "1.0.0") none⟩
        ⟨some ⟨100, .str "1.5.0"⟩, none⟩).latestUsed = some (.str "1.5.0") ∧
    (check_for_updates ⟨100, .ok (none, none), .parsed (some "1.0.0") none, false,
          .ok (none, none), .ok false⟩
        ⟨some ⟨100, .str "1.5.0"⟩, none⟩).fetchAttempted = false ∧
    (check_for_updates ⟨100, .ok (none, none), .parsed (some "1.0.0") none, false,
          .ok (none, none), .ok false⟩
        ⟨some ⟨100, .str "1.5.0"⟩, none⟩).latestUsed = some (.str "1.5.0") :=
  fresh_truthy_cache_suppresses_fetch
    ⟨100, .ok (some "2.0.0"), .parsed (some "1.0.0") none⟩
    ⟨100, .ok (none, none), .parsed (some "1.0.0") none, false, .ok (none, none), .ok false⟩
    ⟨some ⟨100, .str "1.5.0"⟩, none⟩ (by decide) (by decide) (by decide)

/-- Claim C9: when the cache stage must fetch and the fetch raises,
interactive_check prints the transient could-not-reach message and
background_check stays silent; both leave the cache file and the flag
file exactly as they were and let no exception escape. -/
theorem fetch_failure_preserves_state (env : CheckEnv) (s : CheckState)
    (h1 : ¬ (env.now - (readCache s.cache).last_checked < 300 ∧
      truthyPy (readCache s.cache).latest = true))
    (h2 : env.fetch = .error ()) :
    (interactive_check env s).final = s ∧
    (interactive_check env s).printed = [Msg.couldNotReach] ∧
    (interactive_check env s).exc = none ∧
    (background_check env s).final = s ∧
    (background_check env s).printed = [] ∧
    (background_check env s).exc = none := by
  simp only [interactive_check, background_check, if_neg h1, h2]
  simp

/-- Witness for C9: stale cache, unreachable network: both files keep
their previous contents and only the transient message appears. -/
theorem fetch_failure_preserves_state_witness :
    (interactive_check ⟨1000, .error (), .parsed (some "1.0.0") none⟩
        ⟨some ⟨100, .str "1.5.0"⟩, some ⟨.str "1.5.0", "1.0.0", 100⟩⟩).final
      = ⟨some ⟨100, .str "1.5.0"⟩, some ⟨.str "1.5.0", "1.0.0", 100⟩⟩ ∧
    (interactive_check ⟨1000, .error (), .parsed (some "1.0.0") none⟩
        ⟨some ⟨100, .str "1.5.0"⟩, some ⟨.str "1.5.0", "1.0.0", 100⟩⟩).printed
      = [Msg.couldNotReach] ∧
    (interactive_check ⟨1000, .error (), .parsed (some "1.0.0") none⟩
        ⟨some ⟨100, .str "1.5.0"⟩, some ⟨.str "1.5.0", "1.0.0", 100⟩⟩).exc = none ∧
    (background_check ⟨1000, .error (), .parsed (some "1.0.0") none⟩
        ⟨some ⟨100, .str "1.5.0"⟩, some ⟨.str "1.5.0", "1.0.0", 100⟩⟩).final
      = ⟨some ⟨100, .str "1.5.0"⟩, some ⟨.str "1.5.0", "1.0.0", 100⟩⟩ ∧
    (background_check ⟨1000, .error (), .parsed (some "1.0.0") none⟩
        ⟨some ⟨100, .str "1.5.0"⟩, some ⟨.str "1.5.0", "1.0.0", 100⟩⟩).printed = [] ∧
    (background_check ⟨1000, .error (), .parsed (some "1.0.0") none⟩
        ⟨some ⟨100, .str "1.5.0"⟩, some ⟨.str "1.5.0", "1.0.0", 100⟩⟩).exc = none :=
  fetch_failure_preserves_state ⟨1000, .error (), .parsed (some "1.0.0") none⟩
    ⟨some ⟨100, .str "1.5.0"⟩, some ⟨.str "1.5.0", "1.0.0", 100⟩⟩ (by decide) rfl

/-- Claim C10, counterexample: with project.version absent and
tool.poetry.version present but empty, both version keys are falsy yet
the lookup returns the empty string, not None - the Python or
expression hands back its second operand verbatim. -/
theorem empty_poetry_version_not_none :
    get_local_version (.parsed none (some "")) = some "" := by
  rfl

/-- Claim C10 as amended: the lookup returns project.version when it is
truthy and otherwise returns tool.poetry.version verbatim (None only
when that key is also absent); a missing or unparsable manifest gives
None rather than an error. -/
theorem local_version_lookup (p q : Option String) :
    (truthyStr p = true → get_local_version (.parsed p q) = p) ∧
    (truthyStr p = false → get_local_version (.parsed p q) = q) ∧
    get_local_version .missing = none ∧
    get_local_version .unparsable = none := by
  refine ⟨fun h => ?_, fun h => ?_, rfl, rfl⟩
  · simp [get_local_version, h]
  · simp [get_local_version, h]

/-- Witness for the amended C10: a truthy project.version wins; two
absent keys give None. -/
theorem local_version_lookup_witness :
    get_local_version (.parsed (some "1.2.3") (some "9.9.9")) = some "1.2.3" ∧
    get_local_version (.parsed none none) = none :=
  ⟨(local_version_lookup (some "1.2.3") (some "9.9.9")).1 (by decide),
   (local_version_lookup none none).2.1 (by decide)⟩

theorem interactiveRest_no_local (env : CheckEnv) (s : CheckState) (c1 : Option CacheData)
    (l : PyVal) (f : Bool)
    (h : truthyStr (get_local_version env.manifest) = false) :
    interactiveRest env s c1 l f = ⟨none, [.localNotFound], f, some l, none, ⟨c1, s.flag⟩⟩ := by
  unfold interactiveRest
  cases hm : get_local_version env.manifest with
  | none => rfl
  | some lv =>
    rw [hm] at h
    have hlv : lv = "" := by simpa [truthyStr] using h
    simp [hlv]

theorem backgroundRest_no_local (env : CheckEnv) (s : CheckState) (c1 : Option CacheData)
    (l : PyVal) (f : Bool)
    (h : truthyStr (get_local_version env.manifest) = false) :
    backgroundRest env s c1 l f = ⟨none, [], f, some l, none, ⟨c1, s.flag⟩⟩ := by
  unfold backgroundRest
  cases hm : get_local_version env.manifest with
  | none => rfl
  | some lv =>
    rw [hm] at h
    have hlv : lv = "" := by simpa [truthyStr] using h
    simp [hlv]

theorem interactiveRest_flag_cases (env : CheckEnv) (s : CheckState) (c1 : Option CacheData)
    (l : PyVal) (f : Bool) :
    (interactiveRest env s c1 l f).compared = none ∨
    (∃ lv cmp, (interactiveRest env s c1 l f).compared = some (l, lv, cmp) ∧
      (interactiveRest env s c1 l f).final.flag =
        (if 0 < cmp then some ⟨l, lv, env.now⟩ else none)) := by
  unfold interactiveRest
  cases hm : get_local_version env.manifest with
  | none => exact Or.inl rfl
  | some lv =>
    by_cases hlv : lv = ""
    · simp only [if_pos hlv]
      exact Or.inl trivial
    · simp only [if_neg hlv]
      by_cases ht : truthyPy l = false
      · simp only [if_pos ht]
        exact Or.inl trivial
      · simp only [if_neg ht]
        cases hcv : compare_versions_py l (.str lv) with
        | error e => exact Or.inl rfl
        | ok cmp =>
          dsimp only
          refine Or.inr ⟨lv, cmp, ?_, ?_⟩
          · repeat' split
            all_goals rfl
          · repeat' split
            all_goals simp_all

theorem backgroundRest_flag_cases (env : CheckEnv) (s : CheckState) (c1 : Option CacheData)
    (l : PyVal) (f : Bool) :
    (backgroundRest env s c1 l f).compared = none ∨
    (∃ lv cmp, (backgroundRest env s c1 l f).compared = some (l, lv, cmp) ∧
      (backgroundRest env s c1 l f).final.flag =
        (if 0 < cmp then some ⟨l, lv, env.now⟩ else none)) := by
  unfold backgroundRest
  cases hm : get_local_version env.manifest with
  | none => exact Or.inl rfl
  | some lv =>
    by_cases hlv : lv = ""
    · simp only [if_pos hlv]
      exact Or.inl trivial
    · simp only [if_neg hlv]
      by_cases ht : truthyPy l = false
      · simp only [if_pos ht]
        exact Or.inl trivial
      · simp only [if_neg ht]
        cases hcv : compare_versions_py l (.str lv) with
        | error e => exact Or.inl rfl
        | ok cmp =>
          dsimp only
          refine Or.inr ⟨lv, cmp, ?_, ?_⟩
          · repeat' split
            all_goals rfl
          · repeat' split
            all_goals simp_all

/-- Claim C3, counterexample: check_for_updates completes a comparison
that finds local equal to remote (cmp 0, local not below remote) while
a flag file from an earlier run is present, and leaves that flag in
place - it never writes or removes the flag on the comparison
branches, contradicting the claim that after any check operation the
flag exists only when remote exceeds local. -/
theorem check_for_updates_keeps_stale_flag :
    check_for_updates
        ⟨1000, .ok (none, none), .parsed (some "1.0.0") none, false, .ok (none, none), .ok false⟩
        ⟨some ⟨800, .str "1.0.0"⟩, some ⟨.str "1.0.0", "0.9.0", 500⟩⟩
      = ⟨none, [Msg.upToDate], false, some (.str "1.0.0"), some (.str "1.0.0", "1.0.0", 0),
          ⟨some ⟨800, .str "1.0.0"⟩, some ⟨.str "1.0.0", "0.9.0", 500⟩⟩⟩ := by
  rfl

/-- Claim C3 as amended: after interactive_check or background_check
completes a version comparison, the flag file exists if and only if
the comparison found the remote latest strictly greater than the local
version - written with both compared values and the clock value when
greater, removed otherwise.  check_for_updates, by contrast, never
touches the flag as a result of its comparison (counterexample above);
it only removes it after a successfully applied update. -/
theorem flag_iff_update_available (env : CheckEnv) (s : CheckState)
    (ci : PyVal × String × Int) :
    ((interactive_check env s).compared = some ci →
      flagMatches env.now ci (interactive_check env s).final.flag) ∧
    ((background_check env s).compared = some ci →
      flagMatches env.now ci (background_check env s).final.flag) := by
  constructor
  · intro h
    simp only [interactive_check] at h ⊢
    by_cases hc : env.now - (readCache s.cache).last_checked < 300 ∧
        truthyPy (readCache s.cache).latest = true
    · rw [if_pos hc] at h ⊢
      rcases interactiveRest_flag_cases env s s.cache (readCache s.cache).latest false with
        hn | ⟨lv, cmp, hcomp, hflag⟩
      · rw [hn] at h
        cases h
      · rw [hcomp] at h
        injection h with h1
        rw [← h1]
        exact hflag
    · rw [if_neg hc] at h ⊢
      cases hf : env.fetch with
      | error e =>
        rw [hf] at h
        simp at h
      | ok t =>
        rw [hf] at h
        dsimp only at h ⊢
        rcases interactiveRest_flag_cases env s (some ⟨env.now, optToPy t⟩) (optToPy t) true with
          hn | ⟨lv, cmp, hcomp, hflag⟩
        · rw [hn] at h
          cases h
        · rw [hcomp] at h
          injection h with h1
          rw [← h1]
          exact hflag
  · intro h
    simp only [background_check] at h ⊢
    by_cases hc : env.now - (readCache s.cache).last_checked < 300 ∧
        truthyPy (readCache s.cache).latest = true
    · rw [if_pos hc] at h ⊢
      rcases backgroundRest_flag_cases env s s.cache (readCache s.cache).latest false with
        hn | ⟨lv, cmp, hcomp, hflag⟩
      · rw [hn] at h
        cases h
      · rw [hcomp] at h
        injection h with h1
        rw [← h1]
        exact hflag
    · rw [if_neg hc] at h ⊢
      cases hf : env.fetch with
      | error e =>
        rw [hf] at h
        simp at h
      | ok t =>
        rw [hf] at h
        dsimp only at h ⊢
        rcases backgroundRest_flag_cases env s (some ⟨env.now, optToPy t⟩) (optToPy t) true with
          hn | ⟨lv, cmp, hcomp, hflag⟩
        · rw [hn] at h
          cases h
        · rw [hcomp] at h
          injection h with h1
          rw [← h1]
          exact hflag

/-- Witness for the amended C3: a fetch finding 2.0.0 against local
1.0.0 completes a GREATER comparison and both check variants leave the
flag holding exactly the compared values. -/
theorem flag_iff_update_available_witness :
    flagMatches 100 (.str "2.0.0", "1.0.0", 1)
      (interactive_check ⟨100, .ok (some "2.0.0"), .parsed (some "1.0.0") none⟩
        ⟨none, none⟩).final.flag ∧
    flagMatches 100 (.str "2.0.0", "1.0.0", 1)
      (background_check ⟨100, .ok (some "2.0.0"), .parsed (some "1.0.0") none⟩
        ⟨none, none⟩).final.flag :=
  ⟨(flag_iff_update_available ⟨100, .ok (some "2.0.0"), .parsed (some "1.0.0") none⟩
      ⟨none, none⟩ (.str "2.0.0", "1.0.0", 1)).1 (by decide),
   (flag_iff_update_available ⟨100, .ok (some "2.0.0"), .parsed (some "1.0.0") none⟩
      ⟨none, none⟩ (.str "2.0.0", "1.0.0", 1)).2 (by decide)⟩

/-- Claim C4, counterexample: with the manifest missing, an empty cache
and a stale-cache fetch that succeeds, interactive_check prints the
missing-local-version message and aborts - but the cache file has
already been overwritten by the fetch stage (none becomes a fresh
entry), contradicting the claim that the check terminates without
writing any cache file state. -/
theorem missing_manifest_check_still_writes_cache :
    interactive_check ⟨1000, .ok (some "1.0.0"), .missing⟩ ⟨none, none⟩
      = ⟨none, [Msg.localNotFound], true, some (.str "1.0.0"), none,
          ⟨some ⟨1000, .str "1.0.0"⟩, none⟩⟩ := by
  rfl

/-- Claim C4 as amended: when no local version can be read, a check
operation raises nothing, performs no comparison, and leaves the flag
file untouched; the interactive variant prints the user-visible
message whenever it reaches the local-version lookup, and the
background variant is silent - but the cache file may already have
been rewritten by the fetch stage that precedes the lookup. -/
theorem missing_local_version_aborts (env : CheckEnv) (s : CheckState)
    (h : truthyStr (get_local_version env.manifest) = false) :
    (interactive_check env s).exc = none ∧
    (interactive_check env s).compared = none ∧
    (interactive_check env s).final.flag = s.flag ∧
    ((interactive_check env s).latestUsed.isSome →
      (interactive_check env s).printed = [Msg.localNotFound]) ∧
    (background_check env s).exc = none ∧
    (background_check env s).compared = none ∧
    (background_check env s).final.flag = s.flag ∧
    (background_check env s).printed = [] := by
  have hi : ∀ c1 l f, interactiveRest env s c1 l f
      = ⟨none, [.localNotFound], f, some l, none, ⟨c1, s.flag⟩⟩ :=
    fun c1 l f => interactiveRest_no_local env s c1 l f h
  have hb : ∀ c1 l f, backgroundRest env s c1 l f
      = ⟨none, [], f, some l, none, ⟨c1, s.flag⟩⟩ :=
    fun c1 l f => backgroundRest_no_local env s c1 l f h
  simp only [interactive_check, background_check]
  by_cases hc : env.now - (readCache s.cache).last_checked < 300 ∧
      truthyPy (readCache s.cache).latest = true
  · simp only [if_pos hc, hi, hb]
    simp
  · cases hf : env.fetch with
    | error e =>
      simp only [if_neg hc, hf]
      simp
    | ok t =>
      simp only [if_neg hc, hf, hi, hb]
      simp

/-- Witness for the amended C4: an empty-string project.version with no
poetry key makes the local version unreadable; with a prior flag file
present, both variants keep it, print as described and compare
nothing. -/
theorem missing_local_version_aborts_witness :
    (interactive_check ⟨50, .ok (some "3.0.0"), .parsed (some "") none⟩
        ⟨none, some ⟨.str "2.0.0", "1.0.0", 10⟩⟩).exc = none ∧
    (interactive_check ⟨50, .ok (some "3.0.0"), .parsed (some "") none⟩
        ⟨none, some ⟨.str "2.0.0", "1.0.0", 10⟩⟩).compared = none ∧
    (interactive_check ⟨50, .ok (some "3.0.0"), .parsed (some "") none⟩
        ⟨none, some ⟨.str "2.0.0", "1.0.0", 10⟩⟩).final.flag
      = some ⟨.str "2.0.0", "1.0.0", 10⟩ ∧
    ((interactive_check ⟨50, .ok (some "3.0.0"), .parsed (some "") none⟩
        ⟨none, some ⟨.str "2.0.0", "1.0.0", 10⟩⟩).latestUsed.isSome →
      (interactive_check ⟨50, .ok (some "3.0.0"), .parsed (some "") none⟩
        ⟨none, some ⟨.str "2.0.0", "1.0.0", 10⟩⟩).printed = [Msg.localNotFound]) ∧
    (background_check ⟨50, .ok (some "3.0.0"), .parsed (some "") none⟩
        ⟨none, some ⟨.str "2.0.0", "1.0.0", 10⟩⟩).exc = none ∧
    (background_check ⟨50, .ok (some "3.0.0"), .parsed (some "") none⟩
        ⟨none, some ⟨.str "2.0.0", "1.0.0", 10⟩⟩).compared = none ∧
    (background_check ⟨50, .ok (some "3.0.0"), .parsed (some "") none⟩
        ⟨none, some ⟨.str "2.0.0", "1.0.0", 10⟩⟩).final.flag
      = some ⟨.str "2.0.0", "1.0.0", 10⟩ ∧
    (background_check ⟨50, .ok (some "3.0.0"), .parsed (some "") none⟩
        ⟨none, some ⟨.str "2.0.0", "1.0.0", 10⟩⟩).printed = [] :=
  missing_local_version_aborts ⟨50, .ok (some "3.0.0"), .parsed (some "") none⟩
    ⟨none, some ⟨.str "2.0.0", "1.0.0", 10⟩⟩ (by decide)
